import Mathlib

/-!
Verification of `stock_monitoring/stock_ticker_agent/agent.py`.

The five tool functions (`identify_ticker`, `ticker_news`, `ticker_price`,
`ticker_price_change`, `ticker_analysis`) are shallowly embedded here.
External providers (yfinance, Alpha Vantage, NewsAPI) are modelled as
oracles returning `Except Exn _`: the `Except.error` case stands for any
exception raised by the network call, JSON parsing or field access inside
that call.  Python `float` values are modelled as exact rationals (the
claims under study are exact decimal computations).  Python dicts holding
the result envelopes are modelled by `RawResult`, a record with a `status`
string and optional `data` / `error_message` fields, mirroring the literal
dict shapes built in the source.
-/

/-- A Python exception value; only the payload relevant to the embedding
(the `str(e)` text) is kept. -/
inductive Exn where
  | indexError
  | keyError
  | zeroDivisionError
  | providerError (m : String)
deriving DecidableEq

/-- `str(e)` for the modelled exceptions (the envelope messages embed it). -/
def Exn.msg : Exn → String
  | .indexError => "list index out of range"
  | .keyError => "KeyError"
  | .zeroDivisionError => "float division by zero"
  | .providerError m => m

/-- The result-envelope dict built by every tool function:
`{"status": ..., "data": ...}` or `{"status": ..., "error_message": ...}`.
A key that is absent from the dict is modelled by `none`. -/
structure RawResult (α : Type) where
  status : String
  data : Option α
  error_message : Option String
deriving DecidableEq

/-- The `{"status": "success", "data": a}` dict literal. -/
def RawResult.success {α : Type} (a : α) : RawResult α :=
  ⟨"success", some a, none⟩

/-- The `{"status": "error", "error_message": m}` dict literal. -/
def RawResult.failure {α : Type} (m : String) : RawResult α :=
  ⟨"error", none, some m⟩

/-- The envelope invariant stated by the spec: a success carries a data
payload and no message, an `error` carries a message and no payload. -/
def envelopeWF {α : Type} (r : RawResult α) : Prop :=
  (r.status = "success" ∧ r.data.isSome = true ∧ r.error_message = none) ∨
  (r.status = "error" ∧ r.error_message.isSome = true ∧ r.data = none)

/-- Python `list[i]`: raises `IndexError` when out of range.  (The only
negative index reachable in the source is `dates[-1]` on an empty list,
which also raises `IndexError`, so natural-number indexing is faithful.) -/
def listGet {α : Type} (l : List α) (i : Nat) : Except Exn α :=
  match l[i]? with
  | some a => Except.ok a
  | none => Except.error Exn.indexError

/-- Python `d[key]` on a dict modelled as an association list (a Python
dict never holds duplicate keys): raises `KeyError` when absent. -/
def dictGet (entries : List (String × ℚ)) (key : String) : Except Exn ℚ :=
  match entries.find? (fun p => p.1 == key) with
  | some p => Except.ok p.2
  | none => Except.error Exn.keyError

/-- Accessing the `"data"` payload of an envelope dict; raises when the
key is absent (as the Python subscript would). -/
def getData {α : Type} (o : Option α) : Except Exn α :=
  match o with
  | some a => Except.ok a
  | none => Except.error Exn.keyError

/-- Python float division: raises `ZeroDivisionError` on a zero divisor. -/
def pydiv (a b : ℚ) : Except Exn ℚ :=
  if b = 0 then Except.error Exn.zeroDivisionError else Except.ok (a / b)

/-- `try: body except Exception as e: return handler e` — the shape of all
five tool functions, viewed from outside the function: the result value. -/
def pyTry {α : Type} (body : Except Exn α) (handler : Exn → α) : α :=
  match body with
  | Except.ok a => a
  | Except.error e => handler e

/-- The same `try`/`except` statement viewed inside the exception monad:
what the caller could observe, exceptions included. -/
def tryExcept {α : Type} (body : Except Exn α) (handler : Exn → α) :
    Except Exn α :=
  match body with
  | Except.ok a => Except.ok a
  | Except.error e => Except.ok (handler e)

/-! ## Provider-facing data shapes -/

/-- Payload of a successful `identify_ticker`. -/
structure IdData where
  ticker : String
  company_name : String
deriving DecidableEq

/-- A news article; the source imposes no schema beyond a `title` field
(the only field it reads). -/
structure Article where
  title : String
deriving DecidableEq

/-- Payload of a successful `ticker_price` (Global Quote fields, already
converted by `float`/`int`). -/
structure Quote where
  price : ℚ
  volume : ℤ
  trading_day : String
  previous_close : ℚ
deriving DecidableEq

/-- Payload of a successful `ticker_price_change`. -/
structure PriceData where
  start_date : String
  end_date : String
  start_price : ℚ
  end_price : ℚ
  percent_change : ℚ
  timeframe : String
deriving DecidableEq

/-- Payload of a successful `ticker_analysis`. -/
structure AnalysisData where
  analysis : String
deriving DecidableEq

/-- Alpha Vantage TIME_SERIES_DAILY response: either the
`"Time Series (Daily)"` key is absent, or it holds an ordered dict from
date to OHLC fields, of which only the parsed `"4. close"` is kept (a
failing `float` parse or missing field is one of the exceptions already
modelled by the provider oracle). -/
inductive AVDaily where
  | missing
  | series (entries : List (String × ℚ))

/-- The external world: one oracle per outbound call, each given the query
string the source builds for it.  `Except.error` covers every exception
the call can raise. -/
structure Env where
  yf : String → Except Exn (List (String × Except Exn (Option String)))
  avSearch : String → Except Exn (Option (List (String × String)))
  news : String → Except Exn (List Article)
  quote : String → Except Exn (Option Quote)
  daily : String → Except Exn AVDaily

/-! ## Query cleaning (`identify_ticker`, line 33)

`query.lower().replace("stock", "").strip()`, embedded over `List Char`.
`Char.toLower` matches Python `str.lower` on the basic latin range the
source cares about, and `Char.isWhitespace` the `str.strip` default set. -/

/-- Python `s.replace("stock", "")`: remove non-overlapping occurrences of
`"stock"`, scanning left to right (on a match, skip its five characters
and continue after them, as CPython does). -/
def removeStock : List Char → List Char
  | 's' :: 't' :: 'o' :: 'c' :: 'k' :: rest => removeStock rest
  | c :: rest => c :: removeStock rest
  | [] => []

/-- Does `"stock"` occur anywhere in the list? -/
def hasStock : List Char → Bool
  | 's' :: 't' :: 'o' :: 'c' :: 'k' :: _ => true
  | _ :: rest => hasStock rest
  | [] => false

/-- Python `s.strip()`: drop whitespace from both ends. -/
def pyStrip (l : List Char) : List Char :=
  (l.dropWhile Char.isWhitespace).rdropWhile Char.isWhitespace

/-- The cleaning step of `identify_ticker`:
`query.lower().replace("stock", "").strip()`. -/
def cleanQuery (l : List Char) : List Char :=
  pyStrip (removeStock (l.map Char.toLower))

/-- The same cleaning on `String` values, as used by `identify_ticker`. -/
def cleanQueryStr (q : String) : String :=
  (cleanQuery q.toList).asString

/-! ## The five tool functions -/

/-- The candidate loop of `identify_ticker` (lines 38-50): scan the
yfinance tickers; a candidate whose `.info` fetch raised, or whose info is
falsy or lacks `longName`, is skipped; the first candidate carrying a
`longName` wins. -/
def searchCandidates : List (String × Except Exn (Option String)) → Option (String × String)
  | [] => none
  | (sym, res) :: rest =>
    match res with
    | Except.ok (some name) => some (sym, name)
    | _ => searchCandidates rest

/-- Body of the `try` block of `identify_ticker` (lines 32-70).  The
`hasattr(tickers, 'tickers')` guard is always true on a constructed
`Tickers` object and is elided. -/
def identify_ticker_body (env : Env) (query : String) :
    Except Exn (RawResult IdData) := do
  let cleaned := cleanQueryStr query
  let cands ← env.yf cleaned
  match searchCandidates cands with
  | some (sym, name) =>
    pure (RawResult.success { ticker := sym, company_name := name })
  | none => do
    let data ← env.avSearch cleaned
    match data with
    | some (m :: _) =>
      pure (RawResult.success { ticker := m.1, company_name := m.2 })
    | some [] => pure (RawResult.failure "Could not find matching ticker symbol")
    | none => pure (RawResult.failure "Could not find matching ticker symbol")

/-- The `except` clause of `identify_ticker` (lines 71-75). -/
def identify_ticker_handler (e : Exn) : RawResult IdData :=
  RawResult.failure ("Error in ticker identification: " ++ e.msg)

/-- `identify_ticker` (lines 26-75). -/
def identify_ticker (env : Env) (query : String) : RawResult IdData :=
  pyTry (identify_ticker_body env query) identify_ticker_handler

/-- Body of the `try` block of `ticker_news` (lines 81-91); the oracle is
handed the query phrase the source builds. -/
def ticker_news_body (env : Env) (ticker : String) :
    Except Exn (RawResult (List Article)) := do
  let articles ← env.news (ticker ++ " stock")
  pure (RawResult.success articles)

/-- The `except` clause of `ticker_news` (lines 92-96). -/
def ticker_news_handler (e : Exn) : RawResult (List Article) :=
  RawResult.failure ("Error fetching news: " ++ e.msg)

/-- `ticker_news` (lines 77-96). -/
def ticker_news (env : Env) (ticker : String) : RawResult (List Article) :=
  pyTry (ticker_news_body env ticker) ticker_news_handler

/-- Body of the `try` block of `ticker_price` (lines 102-121): `none`
models a response without the `"Global Quote"` key. -/
def ticker_price_body (env : Env) (ticker : String) :
    Except Exn (RawResult Quote) := do
  let resp ← env.quote ticker
  match resp with
  | some q => pure (RawResult.success q)
  | none => pure (RawResult.failure "No price data available")

/-- The `except` clause of `ticker_price` (lines 122-126). -/
def ticker_price_handler (e : Exn) : RawResult Quote :=
  RawResult.failure ("Error fetching price: " ++ e.msg)

/-- `ticker_price` (lines 98-126). -/
def ticker_price (env : Env) (ticker : String) : RawResult Quote :=
  pyTry (ticker_price_body env ticker) ticker_price_handler

/-- The `if`/`elif`/`else` of lines 141-149: window selection.  `today`
reads indices 1 and 0; `week` clamps to `min(7, len(dates)-1)`; every
other timeframe string falls into the `else` branch commented `# month`
and clamps to `min(30, len(dates)-1)`. -/
def selectDates (timeframe : String) (dates : List String) :
    Except Exn (String × String) :=
  if timeframe = "today" then do
    let s ← listGet dates 1
    let e ← listGet dates 0
    pure (s, e)
  else if timeframe = "week" then do
    let s ← listGet dates (min 7 (dates.length - 1))
    let e ← listGet dates 0
    pure (s, e)
  else do
    let s ← listGet dates (min 30 (dates.length - 1))
    let e ← listGet dates 0
    pure (s, e)

/-- Body of the `try` block of `ticker_price_change` (lines 132-169). -/
def ticker_price_change_body (env : Env) (ticker : String)
    (timeframe : String) : Except Exn (RawResult PriceData) := do
  let data ← env.daily ticker
  match data with
  | AVDaily.missing => pure (RawResult.failure "No historical data available")
  | AVDaily.series time_series => do
    let dates := time_series.map Prod.fst
    let (start_date, end_date) ← selectDates timeframe dates
    let start_price ← dictGet time_series start_date
    let end_price ← dictGet time_series end_date
    let ratio ← pydiv (end_price - start_price) start_price
    let change := ratio * 100
    pure (RawResult.success
      { start_date := start_date, end_date := end_date,
        start_price := start_price, end_price := end_price,
        percent_change := change, timeframe := timeframe })

/-- The `except` clause of `ticker_price_change` (lines 170-174). -/
def ticker_price_change_handler (e : Exn) : RawResult PriceData :=
  RawResult.failure ("Error calculating price change: " ++ e.msg)

/-- `ticker_price_change` (lines 128-174). -/
def ticker_price_change (env : Env) (ticker : String) (timeframe : String) :
    RawResult PriceData :=
  pyTry (ticker_price_change_body env ticker timeframe)
    ticker_price_change_handler

/-- Python `f"{x:.2f}"` for the non-negative rationals it is applied to:
round to two decimals and print with a two-digit fraction. -/
def format2 (q : ℚ) : String :=
  let cents : ℤ := round (q * 100)
  let whole := cents / 100
  let frac := (cents % 100).toNat
  toString whole ++ "." ++ (if frac < 10 then "0" else "") ++ toString frac

/-- The price paragraph of `ticker_analysis` (lines 184-192): the lines
appended to `analysis` by the price block. -/
def priceLines (price_data : RawResult PriceData) : Except Exn (List String) :=
  if price_data.status = "success" then do
    let price_info ← getData price_data.data
    let change := price_info.percent_change
    let timeframe := price_info.timeframe
    if change > 0 then
      pure ["The stock has increased by " ++ format2 |change| ++ "% over "
        ++ timeframe ++ "."]
    else
      pure ["The stock has decreased by " ++ format2 |change| ++ "% over "
        ++ timeframe ++ "."]
  else
    pure []

/-- The news paragraph of `ticker_analysis` (lines 195-198): a header line
followed by one bulleted line per article among the first three (a `for`
over `news_data["data"][:3]`). -/
def newsLines (news_data : RawResult (List Article)) : Except Exn (List String) :=
  if news_data.status = "success" then do
    let articles ← getData news_data.data
    if articles.length > 0 then
      pure ("\nRecent news that might explain the movement:" ::
        (articles.take 3).map (fun article => "- " ++ article.title))
    else
      pure []
  else
    pure []

/-- The `analysis` list built by lines 181-198, price block first. -/
def analysisLines (news_data : RawResult (List Article))
    (price_data : RawResult PriceData) : Except Exn (List String) := do
  let a ← priceLines price_data
  let b ← newsLines news_data
  pure (a ++ b)

/-- Python `"\n".join(l)`. -/
def pyJoin (sep : String) : List String → String
  | [] => ""
  | [s] => s
  | s :: rest => s ++ sep ++ pyJoin sep rest

/-- Body of the `try` block of `ticker_analysis` (lines 180-205). -/
def ticker_analysis_body (news_data : RawResult (List Article))
    (price_data : RawResult PriceData) : Except Exn (RawResult AnalysisData) := do
  let ls ← analysisLines news_data price_data
  pure (RawResult.success { analysis := pyJoin "\n" ls })

/-- The `except` clause of `ticker_analysis` (lines 206-210). -/
def ticker_analysis_handler (e : Exn) : RawResult AnalysisData :=
  RawResult.failure ("Error in analysis: " ++ e.msg)

/-- `ticker_analysis` (lines 176-210); the `ticker` argument is unused by
the source body. -/
def ticker_analysis (_ticker : String) (news_data : RawResult (List Article))
    (price_data : RawResult PriceData) : RawResult AnalysisData :=
  pyTry (ticker_analysis_body news_data price_data) ticker_analysis_handler

/-! ## Envelope well-formedness (claims C1, C2) -/

theorem wf_success {α : Type} (a : α) : envelopeWF (RawResult.success a) := by
  left
  simp [RawResult.success, envelopeWF]

theorem wf_failure {α : Type} (m : String) : envelopeWF (RawResult.failure (α := α) m) := by
  right
  simp [RawResult.failure, envelopeWF]

theorem wf_pyTry {α : Type} (body : Except Exn (RawResult α)) (handler : Exn → RawResult α)
    (hb : ∀ r, body = Except.ok r → envelopeWF r) (hh : ∀ e, envelopeWF (handler e)) :
    envelopeWF (pyTry body handler) := by
  cases body with
  | ok r => exact hb r rfl
  | error e => exact hh e

theorem wf_identify_ticker (env : Env) (query : String) :
    envelopeWF (identify_ticker env query) := by
  apply wf_pyTry
  · intro r hr
    rw [identify_ticker_body] at hr
    cases hyf : env.yf (cleanQueryStr query) with
    | error e => simp [hyf, Bind.bind, Except.bind] at hr
    | ok cands =>
      rw [hyf] at hr
      simp only [Bind.bind, Except.bind] at hr
      cases hs : searchCandidates cands with
      | some p =>
        rw [hs] at hr
        simp only [pure, Except.pure, Except.ok.injEq] at hr
        exact hr ▸ wf_success _
      | none =>
        rw [hs] at hr
        cases hav : env.avSearch (cleanQueryStr query) with
        | error e => simp [hav, Bind.bind, Except.bind] at hr
        | ok data =>
          rw [hav] at hr
          simp only [Bind.bind, Except.bind] at hr
          match data with
          | some (m :: _) =>
            simp only [pure, Except.pure, Except.ok.injEq] at hr
            exact hr ▸ wf_success _
          | some [] =>
            simp only [pure, Except.pure, Except.ok.injEq] at hr
            exact hr ▸ wf_failure _
          | none =>
            simp only [pure, Except.pure, Except.ok.injEq] at hr
            exact hr ▸ wf_failure _
  · intro e
    exact wf_failure _

theorem wf_ticker_news (env : Env) (ticker : String) :
    envelopeWF (ticker_news env ticker) := by
  apply wf_pyTry
  · intro r hr
    rw [ticker_news_body] at hr
    cases hn : env.news (ticker ++ " stock") with
    | error e => simp [hn, Bind.bind, Except.bind] at hr
    | ok articles =>
      rw [hn] at hr
      simp only [Bind.bind, Except.bind, pure, Except.pure, Except.ok.injEq] at hr
      exact hr ▸ wf_success _
  · intro e
    exact wf_failure _

theorem wf_ticker_price (env : Env) (ticker : String) :
    envelopeWF (ticker_price env ticker) := by
  apply wf_pyTry
  · intro r hr
    rw [ticker_price_body] at hr
    cases hq : env.quote ticker with
    | error e => simp [hq, Bind.bind, Except.bind] at hr
    | ok resp =>
      rw [hq] at hr
      simp only [Bind.bind, Except.bind] at hr
      match resp with
      | some q =>
        simp only [pure, Except.pure, Except.ok.injEq] at hr
        exact hr ▸ wf_success _
      | none =>
        simp only [pure, Except.pure, Except.ok.injEq] at hr
        exact hr ▸ wf_failure _
  · intro e
    exact wf_failure _

theorem wf_ticker_price_change (env : Env) (ticker timeframe : String) :
    envelopeWF (ticker_price_change env ticker timeframe) := by
  apply wf_pyTry
  · intro r hr
    rw [ticker_price_change_body] at hr
    cases hd : env.daily ticker with
    | error e => simp [hd, Bind.bind, Except.bind] at hr
    | ok data =>
      rw [hd] at hr
      simp only [Bind.bind, Except.bind] at hr
      match data with
      | AVDaily.missing =>
        simp only [pure, Except.pure, Except.ok.injEq] at hr
        exact hr ▸ wf_failure _
      | AVDaily.series ts =>
        simp only at hr
        cases h1 : selectDates timeframe (ts.map Prod.fst) with
        | error e => rw [h1] at hr; simp [Bind.bind, Except.bind] at hr
        | ok se =>
          rw [h1] at hr
          simp only [Bind.bind, Except.bind] at hr
          cases h2 : dictGet ts se.1 with
          | error e => rw [h2] at hr; simp at hr
          | ok sp =>
            rw [h2] at hr
            simp only at hr
            cases h3 : dictGet ts se.2 with
            | error e => rw [h3] at hr; simp at hr
            | ok ep =>
              rw [h3] at hr
              simp only at hr
              cases h4 : pydiv (ep - sp) sp with
              | error e => rw [h4] at hr; simp at hr
              | ok ratio =>
                rw [h4] at hr
                simp only [pure, Except.pure, Except.ok.injEq] at hr
                exact hr ▸ wf_success _
  · intro e
    exact wf_failure _

theorem wf_ticker_analysis (tk : String) (news_data : RawResult (List Article))
    (price_data : RawResult PriceData) :
    envelopeWF (ticker_analysis tk news_data price_data) := by
  apply wf_pyTry
  · intro r hr
    rw [ticker_analysis_body] at hr
    cases hl : analysisLines news_data price_data with
    | error e => simp [hl, Bind.bind, Except.bind] at hr
    | ok ls =>
      rw [hl] at hr
      simp only [Bind.bind, Except.bind, pure, Except.pure, Except.ok.injEq] at hr
      exact hr ▸ wf_success _
  · intro e
    exact wf_failure _

/-- C1: every value returned by any of the five operations is an envelope
in which exactly one of the success payload and the error message is
populated: a `success` status comes with a data payload and no error
message, an `error` status comes with an error message and no data
payload, and no other shape is ever returned. -/
theorem every_tool_returns_wf_envelope :
    (∀ (env : Env) (query : String), envelopeWF (identify_ticker env query)) ∧
    (∀ (env : Env) (ticker : String), envelopeWF (ticker_news env ticker)) ∧
    (∀ (env : Env) (ticker : String), envelopeWF (ticker_price env ticker)) ∧
    (∀ (env : Env) (ticker timeframe : String),
      envelopeWF (ticker_price_change env ticker timeframe)) ∧
    (∀ (tk : String) (news_data : RawResult (List Article))
      (price_data : RawResult PriceData),
      envelopeWF (ticker_analysis tk news_data price_data)) :=
  ⟨wf_identify_ticker, wf_ticker_news, wf_ticker_price,
    wf_ticker_price_change, wf_ticker_analysis⟩

/-- `try`/`except Exception` with a non-raising handler never lets an
exception out: viewed in the exception monad it is always `Except.ok`. -/
theorem tryExcept_eq_ok {α : Type} (body : Except Exn α) (handler : Exn → α) :
    tryExcept body handler = Except.ok (pyTry body handler) := by
  cases body <;> rfl

/-- C2: for every input and every behaviour of the external providers
(any exception a provider call can raise is an `Except.error` of its
oracle), each of the five operations catches the exception at its own
boundary — the whole operation, `except` clause included, evaluates to
`Except.ok` of exactly the envelope the operation returns, so no
exception ever escapes to the caller. -/
theorem no_exception_escapes_any_tool :
    (∀ (env : Env) (query : String),
      tryExcept (identify_ticker_body env query) identify_ticker_handler =
        Except.ok (identify_ticker env query)) ∧
    (∀ (env : Env) (ticker : String),
      tryExcept (ticker_news_body env ticker) ticker_news_handler =
        Except.ok (ticker_news env ticker)) ∧
    (∀ (env : Env) (ticker : String),
      tryExcept (ticker_price_body env ticker) ticker_price_handler =
        Except.ok (ticker_price env ticker)) ∧
    (∀ (env : Env) (ticker timeframe : String),
      tryExcept (ticker_price_change_body env ticker timeframe)
          ticker_price_change_handler =
        Except.ok (ticker_price_change env ticker timeframe)) ∧
    (∀ (tk : String) (news_data : RawResult (List Article))
      (price_data : RawResult PriceData),
      tryExcept (ticker_analysis_body news_data price_data)
          ticker_analysis_handler =
        Except.ok (ticker_analysis tk news_data price_data)) :=
  ⟨fun _ _ => tryExcept_eq_ok _ _, fun _ _ => tryExcept_eq_ok _ _,
    fun _ _ => tryExcept_eq_ok _ _, fun _ _ _ => tryExcept_eq_ok _ _,
    fun _ _ _ => tryExcept_eq_ok _ _⟩

/-! ## Window selection and percent change (claims C3, C4, C9, C10) -/

theorem listGet_ok {α : Type} (l : List α) (i : Nat) (h : i < l.length) :
    listGet l i = Except.ok l[i] := by
  simp [listGet, List.getElem?_eq_getElem h]

theorem dictGet_ok : ∀ (entries : List (String × ℚ)) (i : Nat)
    (h : i < entries.length), (entries.map Prod.fst).Nodup →
    dictGet entries (entries[i].1) = Except.ok (entries[i].2)
  | [], i, h, _ => by simp at h
  | p :: t, 0, _, _ => by simp [dictGet, List.find?_cons]
  | p :: t, j + 1, h, hnd => by
    have hj : j < t.length := by simpa using h
    have hmem : t[j].1 ∈ t.map Prod.fst := List.mem_map_of_mem _ (List.getElem_mem hj)
    have hp : (p.1 == t[j].1) = false :=
      beq_eq_false_iff_ne.mpr (fun he => (List.nodup_cons.mp hnd).1 (he ▸ hmem))
    have ht := (List.nodup_cons.mp hnd).2
    have ih := dictGet_ok t j hj ht
    simp only [List.getElem_cons_succ]
    simp only [dictGet, List.find?_cons, hp, cond_false] at ih ⊢
    exact ih

/-- The `else` (`# month`) branch of the window selection, for any
timeframe string that is neither `"today"` nor `"week"`: start index
`min 30 (length-1)`, end index `0`, timeframe echoed verbatim. -/
theorem price_change_else (env : Env) (tk tf : String) (entries : List (String × ℚ))
    (h1 : tf ≠ "today") (h2 : tf ≠ "week") (hne : entries ≠ [])
    (hnd : (entries.map Prod.fst).Nodup)
    (hresp : env.daily tk = Except.ok (AVDaily.series entries))
    (hz : (entries.getD (min 30 (entries.length - 1)) ("", 0)).2 ≠ 0) :
    ticker_price_change env tk tf = RawResult.success {
      start_date := (entries.getD (min 30 (entries.length - 1)) ("", 0)).1,
      end_date := (entries.getD 0 ("", 0)).1,
      start_price := (entries.getD (min 30 (entries.length - 1)) ("", 0)).2,
      end_price := (entries.getD 0 ("", 0)).2,
      percent_change := ((entries.getD 0 ("", 0)).2 -
          (entries.getD (min 30 (entries.length - 1)) ("", 0)).2) /
        (entries.getD (min 30 (entries.length - 1)) ("", 0)).2 * 100,
      timeframe := tf } := by
  have hlen : 0 < entries.length := List.length_pos.mpr hne
  have hi : min 30 (entries.length - 1) < entries.length := by omega
  have hmap : (entries.map Prod.fst).length = entries.length := List.length_map _ _
  have hd0 : entries.getD 0 ("", 0) = entries[0] := List.getD_eq_getElem _ _ hlen
  have hdi : entries.getD (min 30 (entries.length - 1)) ("", 0) =
      entries[min 30 (entries.length - 1)] := List.getD_eq_getElem _ _ hi
  have hsel : selectDates tf (entries.map Prod.fst) =
      Except.ok (entries[min 30 (entries.length - 1)].1, entries[0].1) := by
    rw [selectDates, if_neg h1, if_neg h2]
    rw [hmap]
    rw [listGet_ok _ _ (by omega), listGet_ok _ _ (by omega)]
    simp [Bind.bind, Except.bind, pure, Except.pure, List.getElem_map]
  rw [ticker_price_change, ticker_price_change_body]
  rw [hresp]
  simp only [Bind.bind, Except.bind]
  rw [hsel]
  simp only
  rw [dictGet_ok entries _ hi hnd, dictGet_ok entries 0 hlen hnd]
  simp only [Bind.bind, Except.bind]
  rw [pydiv, if_neg (hdi ▸ hz)]
  simp only [pyTry, pure, Except.pure, hd0, hdi]

/-- The `"week"` branch of the window selection: start index
`min 7 (length-1)`, end index `0`. -/
theorem price_change_week (env : Env) (tk : String) (entries : List (String × ℚ))
    (hne : entries ≠ [])
    (hnd : (entries.map Prod.fst).Nodup)
    (hresp : env.daily tk = Except.ok (AVDaily.series entries))
    (hz : (entries.getD (min 7 (entries.length - 1)) ("", 0)).2 ≠ 0) :
    ticker_price_change env tk "week" = RawResult.success {
      start_date := (entries.getD (min 7 (entries.length - 1)) ("", 0)).1,
      end_date := (entries.getD 0 ("", 0)).1,
      start_price := (entries.getD (min 7 (entries.length - 1)) ("", 0)).2,
      end_price := (entries.getD 0 ("", 0)).2,
      percent_change := ((entries.getD 0 ("", 0)).2 -
          (entries.getD (min 7 (entries.length - 1)) ("", 0)).2) /
        (entries.getD (min 7 (entries.length - 1)) ("", 0)).2 * 100,
      timeframe := "week" } := by
  have hlen : 0 < entries.length := List.length_pos.mpr hne
  have hi : min 7 (entries.length - 1) < entries.length := by omega
  have hmap : (entries.map Prod.fst).length = entries.length := List.length_map _ _
  have hd0 : entries.getD 0 ("", 0) = entries[0] := List.getD_eq_getElem _ _ hlen
  have hdi : entries.getD (min 7 (entries.length - 1)) ("", 0) =
      entries[min 7 (entries.length - 1)] := List.getD_eq_getElem _ _ hi
  have hsel : selectDates "week" (entries.map Prod.fst) =
      Except.ok (entries[min 7 (entries.length - 1)].1, entries[0].1) := by
    rw [selectDates, if_neg (by decide : ¬ ("week" : String) = "today"), if_pos rfl]
    rw [hmap]
    rw [listGet_ok _ _ (by omega), listGet_ok _ _ (by omega)]
    simp [Bind.bind, Except.bind, pure, Except.pure, List.getElem_map]
  rw [ticker_price_change, ticker_price_change_body]
  rw [hresp]
  simp only [Bind.bind, Except.bind]
  rw [hsel]
  simp only
  rw [dictGet_ok entries _ hi hnd, dictGet_ok entries 0 hlen hnd]
  simp only [Bind.bind, Except.bind]
  rw [pydiv, if_neg (hdi ▸ hz)]
  simp only [pyTry, pure, Except.pure, hd0, hdi]

/-- C3: on a daily series with at least two entries and timeframe
`"today"`, `ticker_price_change` uses date index 1 as start and index 0 as
end and returns `percent_change = (endClose - startClose)/startClose*100`
(the formula presupposes a non-zero start close, hypothesis `hz`; distinct
dates reflect that a Python dict cannot repeat a key). -/
theorem price_change_today (env : Env) (tk d0 d1 : String) (c0 c1 : ℚ)
    (rest : List (String × ℚ)) (hd : d0 ≠ d1) (hz : c1 ≠ 0)
    (hresp : env.daily tk = Except.ok (AVDaily.series ((d0, c0) :: (d1, c1) :: rest))) :
    ticker_price_change env tk "today" = RawResult.success {
      start_date := d1, end_date := d0, start_price := c1,
      end_price := c0, percent_change := (c0 - c1) / c1 * 100,
      timeframe := "today" } := by
  have hb : (d0 == d1) = false := beq_eq_false_iff_ne.mpr hd
  simp [ticker_price_change, ticker_price_change_body, pyTry, hresp, selectDates,
    listGet, dictGet, pydiv, Bind.bind, Except.bind, pure, Except.pure, hb, hz,
    List.find?]

/-- An environment whose daily-series provider answers every request with
`resp` and whose other providers are offline; used to instantiate
universally-quantified theorems at concrete inputs. -/
def constEnv (resp : AVDaily) : Env where
  yf := fun _ => Except.error (Exn.providerError "offline")
  avSearch := fun _ => Except.error (Exn.providerError "offline")
  news := fun _ => Except.error (Exn.providerError "offline")
  quote := fun _ => Except.error (Exn.providerError "offline")
  daily := fun _ => Except.ok resp

/-- Witness to C3 at the series of the spec example:
`[("2024-01-10", 110), ("2024-01-09", 100)]` yields a 10% change. -/
theorem price_change_today_witness :
    ticker_price_change
        (constEnv (AVDaily.series [("2024-01-10", 110), ("2024-01-09", 100)]))
        "IBM" "today" =
      RawResult.success {
        start_date := "2024-01-09", end_date := "2024-01-10",
        start_price := 100, end_price := 110, percent_change := 10,
        timeframe := "today" } := by
  have h := price_change_today
    (constEnv (AVDaily.series [("2024-01-10", 110), ("2024-01-09", 100)]))
    "IBM" "2024-01-10" "2024-01-09" 110 100 [] (by decide) (by norm_num) rfl
  rw [show ((110 : ℚ) - 100) / 100 * 100 = 10 by norm_num] at h
  exact h

/-- C4: on any non-empty daily series, timeframe `"week"` selects start
index `min 7 (length-1)` and end index `0`, and timeframe `"month"`
selects start index `min 30 (length-1)` and end index `0` (clamping to
the oldest available entry rather than failing). -/
theorem price_change_clamps (env : Env) (tk : String) (entries : List (String × ℚ))
    (hne : entries ≠ [])
    (hnd : (entries.map Prod.fst).Nodup)
    (hresp : env.daily tk = Except.ok (AVDaily.series entries))
    (hz7 : (entries.getD (min 7 (entries.length - 1)) ("", 0)).2 ≠ 0)
    (hz30 : (entries.getD (min 30 (entries.length - 1)) ("", 0)).2 ≠ 0) :
    (ticker_price_change env tk "week" = RawResult.success {
      start_date := (entries.getD (min 7 (entries.length - 1)) ("", 0)).1,
      end_date := (entries.getD 0 ("", 0)).1,
      start_price := (entries.getD (min 7 (entries.length - 1)) ("", 0)).2,
      end_price := (entries.getD 0 ("", 0)).2,
      percent_change := ((entries.getD 0 ("", 0)).2 -
          (entries.getD (min 7 (entries.length - 1)) ("", 0)).2) /
        (entries.getD (min 7 (entries.length - 1)) ("", 0)).2 * 100,
      timeframe := "week" }) ∧
    (ticker_price_change env tk "month" = RawResult.success {
      start_date := (entries.getD (min 30 (entries.length - 1)) ("", 0)).1,
      end_date := (entries.getD 0 ("", 0)).1,
      start_price := (entries.getD (min 30 (entries.length - 1)) ("", 0)).2,
      end_price := (entries.getD 0 ("", 0)).2,
      percent_change := ((entries.getD 0 ("", 0)).2 -
          (entries.getD (min 30 (entries.length - 1)) ("", 0)).2) /
        (entries.getD (min 30 (entries.length - 1)) ("", 0)).2 * 100,
      timeframe := "month" }) :=
  ⟨price_change_week env tk entries hne hnd hresp hz7,
    price_change_else env tk "month" entries (by decide) (by decide) hne hnd hresp hz30⟩

/-- Witness to C4 at a 3-entry series: `"week"` clamps the start index to
`min 7 2 = 2`, the oldest entry, and `"month"` to `min 30 2 = 2`. -/
theorem price_change_clamps_witness :
    ticker_price_change
        (constEnv (AVDaily.series
          [("2024-01-10", 110), ("2024-01-09", 105), ("2024-01-08", 100)]))
        "IBM" "week" =
      RawResult.success {
        start_date := "2024-01-08", end_date := "2024-01-10",
        start_price := 100, end_price := 110, percent_change := 10,
        timeframe := "week" } := by
  have h := (price_change_clamps
    (constEnv (AVDaily.series
      [("2024-01-10", 110), ("2024-01-09", 105), ("2024-01-08", 100)]))
    "IBM" [("2024-01-10", 110), ("2024-01-09", 105), ("2024-01-08", 100)]
    (by decide) (by decide) rfl (by norm_num) (by norm_num)).1
  simp only [List.getD] at h
  norm_num at h
  exact h

/-- C9: any timeframe string other than `"today"` and `"week"` (not only
`"month"`) falls into the `else` branch: start index `min 30 (length-1)`,
end index `0`, and the timeframe string is echoed verbatim in the
result — the argument is never validated against the enum. -/
theorem price_change_unknown_timeframe (env : Env) (tk tf : String)
    (entries : List (String × ℚ))
    (h1 : tf ≠ "today") (h2 : tf ≠ "week") (hne : entries ≠ [])
    (hnd : (entries.map Prod.fst).Nodup)
    (hresp : env.daily tk = Except.ok (AVDaily.series entries))
    (hz : (entries.getD (min 30 (entries.length - 1)) ("", 0)).2 ≠ 0) :
    ticker_price_change env tk tf = RawResult.success {
      start_date := (entries.getD (min 30 (entries.length - 1)) ("", 0)).1,
      end_date := (entries.getD 0 ("", 0)).1,
      start_price := (entries.getD (min 30 (entries.length - 1)) ("", 0)).2,
      end_price := (entries.getD 0 ("", 0)).2,
      percent_change := ((entries.getD 0 ("", 0)).2 -
          (entries.getD (min 30 (entries.length - 1)) ("", 0)).2) /
        (entries.getD (min 30 (entries.length - 1)) ("", 0)).2 * 100,
      timeframe := tf } :=
  price_change_else env tk tf entries h1 h2 hne hnd hresp hz

/-- Witness to C9 at the arbitrary timeframe string `"year"`: behaves as
`"month"` would and echoes `"year"` in the result. -/
theorem price_change_unknown_timeframe_witness :
    ticker_price_change
        (constEnv (AVDaily.series [("2024-01-10", 110), ("2024-01-09", 100)]))
        "IBM" "year" =
      RawResult.success {
        start_date := "2024-01-09", end_date := "2024-01-10",
        start_price := 100, end_price := 110, percent_change := 10,
        timeframe := "year" } := by
  have h := price_change_unknown_timeframe
    (constEnv (AVDaily.series [("2024-01-10", 110), ("2024-01-09", 100)]))
    "IBM" "year" [("2024-01-10", 110), ("2024-01-09", 100)]
    (by decide) (by decide) (by decide) (by decide) rfl (by norm_num)
  simp only [List.getD] at h
  norm_num at h
  exact h

/-- C10: on a daily series holding exactly one date, timeframe `"today"`
reads `dates[1]`, which raises `IndexError`; the top-level handler turns
it into the `error` envelope whose message begins
`"Error calculating price change:"` — never a success, and (last
conjunct) never an escaping exception. -/
theorem price_change_single_day (env : Env) (tk d : String) (c : ℚ)
    (hresp : env.daily tk = Except.ok (AVDaily.series [(d, c)])) :
    ticker_price_change env tk "today" =
      RawResult.failure ("Error calculating price change: " ++ Exn.msg Exn.indexError) ∧
    (ticker_price_change env tk "today").status = "error" ∧
    (ticker_price_change env tk "today").data = none ∧
    ("Error calculating price change:".toList <+:
      ("Error calculating price change: " ++ Exn.msg Exn.indexError).toList) ∧
    tryExcept (ticker_price_change_body env tk "today") ticker_price_change_handler =
      Except.ok (ticker_price_change env tk "today") := by
  have hb : ticker_price_change_body env tk "today" = Except.error Exn.indexError := by
    rw [ticker_price_change_body, hresp]
    simp [Bind.bind, Except.bind, selectDates, listGet]
  have hr : ticker_price_change env tk "today" =
      RawResult.failure ("Error calculating price change: " ++ Exn.msg Exn.indexError) := by
    rw [ticker_price_change, hb]
    rfl
  refine ⟨hr, by rw [hr]; rfl, by rw [hr]; rfl, by decide, ?_⟩
  rw [hb, hr]
  rfl

/-- Witness to C10 at a concrete one-date series. -/
theorem price_change_single_day_witness :
    ticker_price_change (constEnv (AVDaily.series [("2024-01-10", 110)]))
        "IBM" "today" =
      RawResult.failure ("Error calculating price change: " ++ Exn.msg Exn.indexError) ∧
    (ticker_price_change (constEnv (AVDaily.series [("2024-01-10", 110)]))
        "IBM" "today").status = "error" ∧
    (ticker_price_change (constEnv (AVDaily.series [("2024-01-10", 110)]))
        "IBM" "today").data = none ∧
    ("Error calculating price change:".toList <+:
      ("Error calculating price change: " ++ Exn.msg Exn.indexError).toList) ∧
    tryExcept
        (ticker_price_change_body (constEnv (AVDaily.series [("2024-01-10", 110)]))
          "IBM" "today")
        ticker_price_change_handler =
      Except.ok (ticker_price_change (constEnv (AVDaily.series [("2024-01-10", 110)]))
        "IBM" "today") :=
  price_change_single_day (constEnv (AVDaily.series [("2024-01-10", 110)]))
    "IBM" "2024-01-10" 110 rfl

/-! ## Analysis composition (claims C5, C7, C8) -/

theorem format2_zero : format2 0 = "0.00" := by
  simp only [format2]
  norm_num
  rfl

/-- A well-formed price envelope never makes the price block raise. -/
theorem priceLines_wf (p : RawResult PriceData) (hwf : envelopeWF p) :
    ∃ pl, priceLines p = Except.ok pl := by
  rcases hwf with ⟨hs, hd, _⟩ | ⟨hs, _, _⟩
  · rw [priceLines, if_pos hs]
    rcases Option.isSome_iff_exists.mp hd with ⟨pd, hpd⟩
    rw [hpd]
    simp only [getData, Bind.bind, Except.bind]
    by_cases hc : pd.percent_change > 0
    · exact ⟨_, by rw [if_pos hc]; rfl⟩
    · exact ⟨_, by rw [if_neg hc]; rfl⟩
  · rw [priceLines, if_neg (by rw [hs]; decide)]
    exact ⟨[], rfl⟩

/-- A well-formed news envelope never makes the news block raise. -/
theorem newsLines_wf (n : RawResult (List Article)) (hwf : envelopeWF n) :
    ∃ nl, newsLines n = Except.ok nl := by
  rcases hwf with ⟨hs, hd, _⟩ | ⟨hs, _, _⟩
  · rw [newsLines, if_pos hs]
    rcases Option.isSome_iff_exists.mp hd with ⟨arts, ha⟩
    rw [ha]
    simp only [getData, Bind.bind, Except.bind]
    by_cases hl : arts.length > 0
    · exact ⟨_, by rw [if_pos hl]; rfl⟩
    · exact ⟨_, by rw [if_neg hl]; rfl⟩
  · rw [newsLines, if_neg (by rw [hs]; decide)]
    exact ⟨[], rfl⟩

/-- The head line of a joined line list is a prefix of the joined text. -/
theorem pyJoin_head_prefix (s : String) (rest : List String) :
    s.toList <+: (pyJoin "\n" (s :: rest)).toList := by
  cases rest with
  | nil => exact List.prefix_refl _
  | cons t ts =>
    show s.data <+: (s ++ "\n" ++ pyJoin "\n" (t :: ts)).data
    rw [String.data_append, String.data_append]
    rw [List.append_assoc]
    exact ⟨_, rfl⟩

/-- C5: a price success whose `percent_change` is exactly `0` with
timeframe `"today"` makes `ticker_analysis` emit the sentence
`"The stock has decreased by 0.00% over today."` — the branch tests
`change > 0` versus `else`, so zero is reported as a decrease (any
well-formed news envelope alongside). -/
theorem analysis_zero_change (tk : String) (news : RawResult (List Article))
    (hwf : envelopeWF news) (pd : PriceData)
    (hc : pd.percent_change = 0) (htf : pd.timeframe = "today") :
    ∃ a rest,
      analysisLines news (RawResult.success pd) =
        Except.ok ("The stock has decreased by 0.00% over today." :: rest) ∧
      ticker_analysis tk news (RawResult.success pd) = RawResult.success a ∧
      a.analysis =
        pyJoin "\n" ("The stock has decreased by 0.00% over today." :: rest) ∧
      "The stock has decreased by 0.00% over today.".toList <+: a.analysis.toList := by
  have hsentence : "The stock has decreased by " ++ format2 |pd.percent_change| ++
      "% over " ++ pd.timeframe ++ "." =
      "The stock has decreased by 0.00% over today." := by
    rw [hc, htf, abs_zero, format2_zero]
    rfl
  have hp : priceLines (RawResult.success pd) =
      Except.ok ["The stock has decreased by 0.00% over today."] := by
    have h1 : priceLines (RawResult.success pd) =
        if pd.percent_change > 0 then
          (pure ["The stock has increased by " ++ format2 |pd.percent_change| ++
            "% over " ++ pd.timeframe ++ "."] : Except Exn (List String))
        else
          pure ["The stock has decreased by " ++ format2 |pd.percent_change| ++
            "% over " ++ pd.timeframe ++ "."] := rfl
    rw [h1, if_neg (by rw [hc]; exact lt_irrefl 0), hsentence]
    rfl
  rcases newsLines_wf news hwf with ⟨nl, hn⟩
  have hlines : analysisLines news (RawResult.success pd) =
      Except.ok ("The stock has decreased by 0.00% over today." :: nl) := by
    rw [analysisLines]
    rw [hp, hn]
    rfl
  refine ⟨⟨pyJoin "\n" ("The stock has decreased by 0.00% over today." :: nl)⟩,
    nl, hlines, ?_, rfl, pyJoin_head_prefix _ _⟩
  rw [ticker_analysis, ticker_analysis_body, hlines]
  rfl

/-- Witness to C5: zero change over `"today"` with an empty news success
produces exactly the decrease sentence. -/
theorem analysis_zero_change_witness :
    ∃ a rest,
      analysisLines (RawResult.success ([] : List Article))
          (RawResult.success
            (⟨"2024-01-09", "2024-01-10", 100, 100, 0, "today"⟩ : PriceData)) =
        Except.ok ("The stock has decreased by 0.00% over today." :: rest) ∧
      ticker_analysis "TSLA" (RawResult.success ([] : List Article))
          (RawResult.success
            (⟨"2024-01-09", "2024-01-10", 100, 100, 0, "today"⟩ : PriceData)) =
        RawResult.success a ∧
      a.analysis =
        pyJoin "\n" ("The stock has decreased by 0.00% over today." :: rest) ∧
      "The stock has decreased by 0.00% over today.".toList <+: a.analysis.toList :=
  analysis_zero_change "TSLA" (RawResult.success ([] : List Article))
    (Or.inl ⟨rfl, rfl, rfl⟩)
    (⟨"2024-01-09", "2024-01-10", 100, 100, 0, "today"⟩ : PriceData) rfl rfl

/-- C7: with an `error` price envelope and a news success holding an empty
article list, `ticker_analysis` returns a success whose text is empty, so
it contains neither a price sentence nor the news section header. -/
theorem analysis_error_price_empty_news (tk msg : String) :
    ∃ a, ticker_analysis tk (RawResult.success ([] : List Article))
          (RawResult.failure msg) = RawResult.success a ∧
      a.analysis = "" ∧
      ¬ ("The stock has".toList <:+: a.analysis.toList) ∧
      ¬ ("Recent news that might explain the movement:".toList <:+:
          a.analysis.toList) := by
  have hlines : analysisLines (RawResult.success ([] : List Article))
      (RawResult.failure msg) = Except.ok [] := rfl
  refine ⟨{ analysis := "" }, ?_, rfl, by decide, by decide⟩
  rw [ticker_analysis, ticker_analysis_body, hlines]
  rfl

/-- C8: a news success with more than three articles contributes exactly
the first three titles as bulleted lines — the bullet list has length 3
no matter how many articles are available (any well-formed price envelope
alongside). -/
theorem analysis_truncates_news (tk : String) (articles : List Article)
    (price : RawResult PriceData) (hwf : envelopeWF price)
    (hlen : 3 < articles.length) :
    ∃ pre,
      analysisLines (RawResult.success articles) price =
        Except.ok (pre ++ "\nRecent news that might explain the movement:" ::
          (articles.take 3).map (fun article => "- " ++ article.title)) ∧
      ((articles.take 3).map (fun article => "- " ++ article.title)).length = 3 ∧
      ticker_analysis tk (RawResult.success articles) price = RawResult.success {
        analysis := pyJoin "\n"
          (pre ++ "\nRecent news that might explain the movement:" ::
            (articles.take 3).map (fun article => "- " ++ article.title)) } := by
  have hn : newsLines (RawResult.success articles) =
      Except.ok ("\nRecent news that might explain the movement:" ::
        (articles.take 3).map (fun article => "- " ++ article.title)) := by
    have h1 : newsLines (RawResult.success articles) =
        if articles.length > 0 then
          (pure ("\nRecent news that might explain the movement:" ::
            (articles.take 3).map (fun article => "- " ++ article.title)) :
            Except Exn (List String))
        else pure [] := rfl
    rw [h1, if_pos (by omega)]
    rfl
  rcases priceLines_wf price hwf with ⟨pl, hp⟩
  have hlines : analysisLines (RawResult.success articles) price =
      Except.ok (pl ++ "\nRecent news that might explain the movement:" ::
        (articles.take 3).map (fun article => "- " ++ article.title)) := by
    rw [analysisLines, hp, hn]
    rfl
  have hcount : ((articles.take 3).map (fun article => "- " ++ article.title)).length = 3 := by
    rw [List.length_map, List.length_take]
    omega
  refine ⟨pl, hlines, hcount, ?_⟩
  rw [ticker_analysis, ticker_analysis_body, hlines]
  rfl

/-- Witness to C8: four articles, only the first three titles appear. -/
theorem analysis_truncates_news_witness :
    ∃ pre,
      analysisLines
          (RawResult.success [⟨"t1"⟩, ⟨"t2"⟩, ⟨"t3"⟩, ⟨"t4"⟩])
          (RawResult.failure "No price data available") =
        Except.ok (pre ++ "\nRecent news that might explain the movement:" ::
          (([⟨"t1"⟩, ⟨"t2"⟩, ⟨"t3"⟩, ⟨"t4"⟩] : List Article).take 3).map
            (fun article => "- " ++ article.title)) ∧
      ((([⟨"t1"⟩, ⟨"t2"⟩, ⟨"t3"⟩, ⟨"t4"⟩] : List Article).take 3).map
        (fun article => "- " ++ article.title)).length = 3 ∧
      ticker_analysis "NVDA" (RawResult.success [⟨"t1"⟩, ⟨"t2"⟩, ⟨"t3"⟩, ⟨"t4"⟩])
          (RawResult.failure "No price data available") = RawResult.success {
        analysis := pyJoin "\n"
          (pre ++ "\nRecent news that might explain the movement:" ::
            (([⟨"t1"⟩, ⟨"t2"⟩, ⟨"t3"⟩, ⟨"t4"⟩] : List Article).take 3).map
              (fun article => "- " ++ article.title)) } :=
  analysis_truncates_news "NVDA" [⟨"t1"⟩, ⟨"t2"⟩, ⟨"t3"⟩, ⟨"t4"⟩]
    (RawResult.failure "No price data available") (Or.inr ⟨rfl, rfl, rfl⟩) (by decide)

/-! ## Query-cleaning idempotence (claim C6)

The cleaning is NOT idempotent in general: removing the non-overlapping
occurrences of `"stock"` can splice a new occurrence together (e.g.
`"stostockck"` cleans to `"stock"`, which cleans to `""`).  It is
idempotent exactly when the cleaned string no longer contains `"stock"`. -/

theorem toLower_toLower (c : Char) : c.toLower.toLower = c.toLower := by
  have hdef : ∀ d : Char, d.toLower =
      if d.toNat ≥ 65 ∧ d.toNat ≤ 90 then Char.ofNat (d.toNat + 32) else d :=
    fun d => rfl
  by_cases h : c.toNat ≥ 65 ∧ c.toNat ≤ 90
  · rw [hdef c, if_pos h]
    obtain ⟨h1, h2⟩ := h
    generalize c.toNat = n at h1 h2
    interval_cases n <;> decide
  · rw [hdef c, if_neg h, hdef c, if_neg h]

theorem removeStock_mem (a : Char) : ∀ (l : List Char), a ∈ removeStock l → a ∈ l := by
  intro l
  induction l using removeStock.induct with
  | case1 rest ih =>
    intro h
    rw [removeStock] at h
    have := ih h
    simp only [List.mem_cons]
    tauto
  | case2 c rest h2 ih =>
    intro h
    rw [removeStock] at h
    · rcases List.mem_cons.mp h with h | h
      · exact h ▸ List.mem_cons_self _ _
      · exact List.mem_cons_of_mem _ (ih h)
    · exact h2
  | case3 =>
    intro h
    rw [removeStock] at h
    exact h

theorem hasStock_removeStock : ∀ (l : List Char), hasStock l = false → removeStock l = l := by
  intro l
  induction l using removeStock.induct with
  | case1 rest ih =>
    intro h
    rw [hasStock] at h
    exact absurd h (by decide)
  | case2 c rest h2 ih =>
    intro h
    rw [hasStock] at h
    · rw [removeStock]
      · rw [ih h]
      · exact h2
    · exact h2
  | case3 =>
    intro h
    rfl

theorem pyStrip_subset (a : Char) (l : List Char) (h : a ∈ pyStrip l) : a ∈ l :=
  (List.dropWhile_suffix _).subset ((List.rdropWhile_prefix _ _).subset h)

/-- A prefix of a list unchanged by `dropWhile` is itself unchanged. -/
theorem dropWhile_prefix_self {p : Char → Bool} {Y Z : List Char}
    (hY : Y.dropWhile p = Y) (hZ : Z <+: Y) : Z.dropWhile p = Z := by
  cases Z with
  | nil => rfl
  | cons c zs =>
    obtain ⟨t, ht⟩ := hZ
    have hc : p c = false := by
      by_contra hc
      have hc2 : p c = true := by simpa using hc
      rw [← ht, List.cons_append, List.dropWhile_cons_of_pos hc2] at hY
      have hlen := congrArg List.length hY
      have hle : ((zs ++ t).dropWhile p).length ≤ (zs ++ t).length :=
        (List.dropWhile_sublist _).length_le
      simp only [List.length_cons, List.length_append] at hlen hle
      omega
    rw [List.dropWhile_cons_of_neg (by simp [hc])]

theorem dropWhile_pyStrip (l : List Char) :
    (pyStrip l).dropWhile Char.isWhitespace = pyStrip l :=
  dropWhile_prefix_self (List.dropWhile_idempotent _ _)
    (List.rdropWhile_prefix _ _)

theorem pyStrip_idem (l : List Char) : pyStrip (pyStrip l) = pyStrip l := by
  show ((pyStrip l).dropWhile Char.isWhitespace).rdropWhile Char.isWhitespace = pyStrip l
  rw [dropWhile_pyStrip]
  rw [pyStrip]
  exact List.rdropWhile_idempotent _ _

theorem cleanQuery_idem (l : List Char) (h : hasStock (cleanQuery l) = false) :
    cleanQuery (cleanQuery l) = cleanQuery l := by
  have hfix : ∀ a ∈ cleanQuery l, a.toLower = a := by
    intro a ha
    have h1 : a ∈ removeStock (l.map Char.toLower) := pyStrip_subset a _ ha
    have h2 : a ∈ l.map Char.toLower := removeStock_mem a _ h1
    rcases List.mem_map.mp h2 with ⟨b, _, hb⟩
    rw [← hb]
    exact toLower_toLower b
  have hmap : (cleanQuery l).map Char.toLower = cleanQuery l := by
    calc (cleanQuery l).map Char.toLower
        = (cleanQuery l).map id := List.map_congr_left hfix
      _ = cleanQuery l := List.map_id _
  calc cleanQuery (cleanQuery l)
      = pyStrip (removeStock ((cleanQuery l).map Char.toLower)) := rfl
    _ = pyStrip (removeStock (cleanQuery l)) := by rw [hmap]
    _ = pyStrip (cleanQuery l) := by rw [hasStock_removeStock _ h]
    _ = cleanQuery l := pyStrip_idem (removeStock (l.map Char.toLower))

/-- Counterexample to C6 as stated: on the query `"stostockck"` the
cleaning yields `"stock"` (removing the inner occurrence splices a new
one together), and cleaning that again yields `""` — so the cleaning is
not idempotent. -/
theorem cleanQuery_not_idempotent :
    cleanQueryStr (cleanQueryStr "stostockck") ≠ cleanQueryStr "stostockck" ∧
    cleanQueryStr "stostockck" = "stock" ∧
    cleanQueryStr "stock" = "" := by
  refine ⟨?_, by decide, by decide⟩
  decide

/-- C6 (amended): the cleaning step is idempotent for every query whose
cleaned form no longer contains the substring `"stock"` — re-cleaning
such a string changes nothing. -/
theorem cleanQueryStr_idem (q : String)
    (h : hasStock (cleanQuery q.toList) = false) :
    cleanQueryStr (cleanQueryStr q) = cleanQueryStr q := by
  show (cleanQuery (cleanQueryStr q).toList).asString = (cleanQuery q.toList).asString
  have ht : (cleanQueryStr q).toList = cleanQuery q.toList := rfl
  rw [ht, cleanQuery_idem _ h]

/-- Witness to the amended C6 at the spec's own example `"Tesla stock"`
(which cleans to `"tesla"`). -/
theorem cleanQueryStr_idem_witness :
    hasStock (cleanQuery "Tesla stock".toList) = false ∧
    cleanQueryStr "Tesla stock" = "tesla" ∧
    cleanQueryStr (cleanQueryStr "Tesla stock") = cleanQueryStr "Tesla stock" :=
  ⟨by decide, by decide, cleanQueryStr_idem "Tesla stock" (by decide)⟩
